import Mathlib

/-
Verification development for the VAAPI procamp (color balance) video filter
from libavfilter/vf_procamp_vaapi.c.

The filter is embedded shallowly:
  * the four adjustment controls and the capability ranges are modelled over ℚ
    (the C code only compares and selects float values, it never computes with
    them, so exact rationals are a faithful carrier);
  * VAAPI object ids (VAConfigID, VAContextID, VABufferID) are modelled as
    `Option Nat`, with `none` standing for VA_INVALID_ID;
  * every fallible external call (libva entry points, frame-pool allocation,
    metadata copy, downstream delivery) is resolved through an explicit
    environment record giving that call's outcome, so each driver behaviour is
    one concrete environment value;
  * the hardware calls issued by a run are collected in an explicit trace so
    that ordering properties (begin/render/end, teardown order) are provable.
-/

set_option autoImplicit false

namespace ProcampVAAPI

/-- VA_STATUS_SUCCESS status code. -/
def VA_STATUS_SUCCESS : Nat := 0

/-- AVERROR(EINVAL) as returned on Linux: negated errno 22. -/
def AVERROR_EINVAL : Int := -22

/-- AVERROR(ENOMEM): negated errno 12. -/
def AVERROR_ENOMEM : Int := -12

/-- AVERROR(EIO): negated errno 5. -/
def AVERROR_EIO : Int := -5

/-- AV_NOPTS_VALUE, the timestamp a freshly allocated frame carries. -/
def AV_NOPTS_VALUE : Int := -9223372036854775808

/-- VA_FRAME_PICTURE flag value. -/
def VA_FRAME_PICTURE : Nat := 0

/-! ## Adjustment parameters (lines 143-181) -/

/-- The four color-balance controls handled by the filter. -/
inductive Control where
  | brightness
  | contrast
  | hue
  | saturation
deriving DecidableEq, Repr

/-- One entry of the queried VAProcFilterCapColorBalance array: the valid
device range for one control. -/
structure CapRange where
  min_value : ℚ
  max_value : ℚ
deriving DecidableEq, Repr

/-- The four user-set option values of the filter (fields bright, contrast,
hue, saturation of ProcampVAAPIContext). -/
structure ProcampOpts where
  bright : ℚ
  contrast : ℚ
  hue : ℚ
  saturation : ℚ
deriving DecidableEq, Repr

/-- One VAProcFilterParameterBufferColorBalance record: which control it
addresses and the value submitted for it. -/
structure ProcampParam where
  attrib : Control
  value : ℚ
deriving DecidableEq, Repr

/-- Modelled from the spec: `av_clip` lives in libavutil/common.h, which is not
part of the sources under verification.  The spec describes it as clamping a
value to the queried device range, the clamped result being
max(min, min(v, max)); we model the clamp with the usual below/above case
split. -/
def av_clip (a amin amax : ℚ) : ℚ :=
  if a < amin then amin else if a > amax then amax else a

/-- The logical default of each control: 0 for brightness and hue, 1 for
contrast and saturation (the values the code stores before the guarded
clamp). -/
def logicalDefault : Control → ℚ
  | .brightness => 0
  | .contrast => 1
  | .hue => 0
  | .saturation => 1

/-- The user-set value for a control. -/
def userValue (o : ProcampOpts) : Control → ℚ
  | .brightness => o.bright
  | .contrast => o.contrast
  | .hue => o.hue
  | .saturation => o.saturation

/-- The guard under which the code overwrites the stored default with a
clamped value: `if (ctx->bright)`, `if (ctx->contrast != 1)`,
`if (ctx->hue)`, `if (ctx->saturation != 1)`. -/
def clampInvoked (o : ProcampOpts) : Control → Bool
  | .brightness => decide (o.bright ≠ 0)
  | .contrast => decide (o.contrast ≠ 1)
  | .hue => decide (o.hue ≠ 0)
  | .saturation => decide (o.saturation ≠ 1)

/-- The four parameter records built at lines 143-181, in the order the code
fills procamp_params[0..3]: brightness, contrast, hue, saturation.  Each
starts at its logical default and is overwritten by the clamped user value
only when the guard fires. -/
def procamp_params (o : ProcampOpts) (caps : Control → CapRange) :
    List ProcampParam :=
  [ { attrib := .brightness,
      value := if o.bright ≠ 0 then
          av_clip o.bright (caps .brightness).min_value (caps .brightness).max_value
        else 0 },
    { attrib := .contrast,
      value := if o.contrast ≠ 1 then
          av_clip o.contrast (caps .contrast).min_value (caps .contrast).max_value
        else 1 },
    { attrib := .hue,
      value := if o.hue ≠ 0 then
          av_clip o.hue (caps .hue).min_value (caps .hue).max_value
        else 0 },
    { attrib := .saturation,
      value := if o.saturation ≠ 1 then
          av_clip o.saturation (caps .saturation).min_value (caps .saturation).max_value
        else 1 } ]

/-! ## Color standard resolution (lines 320-332) -/

/-- The libavutil colorspace tags distinguished by the filter; every other
tag is collapsed into `other`. -/
inductive AVColorSpace where
  | bt709
  | bt470bg
  | smpte170m
  | smpte240m
  | other (code : Nat)
deriving DecidableEq, Repr

/-- The VAProcColorStandard tags the filter can produce. -/
inductive VAProcColorStandard where
  | bt709
  | bt601
  | smpte170m
  | smpte240m
  | cs_none
deriving DecidableEq, Repr

/-- Translation from libavutil colorspace to VA color standard
(vaapi_proc_colour_standard): the four known cases map across, everything
else maps to VAProcColorStandardNone. -/
def vaapi_proc_colour_standard : AVColorSpace → VAProcColorStandard
  | .bt709 => .bt709
  | .bt470bg => .bt601
  | .smpte170m => .smpte170m
  | .smpte240m => .smpte240m
  | .other _ => .cs_none

/-! ## Frames and the per-frame submission protocol (lines 334-463) -/

/-- An AVFrame as the filter sees it: format/size/colorspace, presentation
timestamp, an abstract bag of side data, and the VASurfaceID stored in
data[3]. -/
structure Frame where
  format : Nat
  width : Nat
  height : Nat
  colorspace : AVColorSpace
  pts : Int
  sideData : List Nat
  surface : Nat
deriving DecidableEq, Repr

/-- The pixel-format tag AV_PIX_FMT_VAAPI (an opaque tag in this model;
software formats are arbitrary other naturals). -/
def AV_PIX_FMT_VAAPI : Nat := 1000

/-- The frame av_frame_alloc returns: no buffers, data[3] = NULL (surface 0),
zero sizes, pts = AV_NOPTS_VALUE. -/
def blankFrame : Frame :=
  { format := 0, width := 0, height := 0, colorspace := .other 0,
    pts := AV_NOPTS_VALUE, sideData := [], surface := 0 }

/-- The VAProcPipelineParameterBuffer built for one submission (lines
374-395). -/
structure PipelineParams where
  surface : Nat
  region_width : Nat
  region_height : Nat
  surface_color_standard : VAProcColorStandard
  output_background_color : Nat
  output_color_standard : VAProcColorStandard
  pipeline_flags : Nat
  filter_flags : Nat
  filters : Option Nat
  num_filters : Nat
deriving DecidableEq, Repr

/-- One hardware call issued during a submission, in issue order. -/
inductive VACall where
  | beginPicture (ctxId : Nat) (surface : Nat)
  | createBuffer (ctxId : Nat) (params : PipelineParams)
  | renderPicture (ctxId : Nat) (bufferId : Nat) (numBuffers : Nat)
  | endPicture (ctxId : Nat)
  | destroyBuffer (bufferId : Nat)
deriving DecidableEq, Repr

/-- Spec of the output frame pool stored in the output AVHWFramesContext. -/
structure PoolSpec where
  sw_format : Nat
  width : Nat
  height : Nat
  initial_pool_size : Nat
deriving DecidableEq, Repr

/-- The fields of ProcampVAAPIContext this model tracks.  The three VAAPI ids
use `Option Nat` with `none` for VA_INVALID_ID; `output_format` uses `none`
for AV_PIX_FMT_NONE; `output_frames` is the output pool reference;
`device_ref` records whether the device reference is held. -/
structure PCtx where
  va_config : Option Nat
  va_context : Option Nat
  filter_buffer : Option Nat
  output_format : Option Nat
  output_width : Nat
  output_height : Nat
  output_frames : Option PoolSpec
  device_ref : Bool
  input_sw_format : Nat
  input_width : Nat
  input_height : Nat
deriving DecidableEq, Repr

/-- Outcomes of the external calls a single frame submission can make.  A
libva status field equal to VA_STATUS_SUCCESS means the call succeeds.
`uninitParamsId` is the indeterminate stack value of params_id that the
cleanup path reads when vaCreateBuffer itself failed. -/
structure FilterEnv where
  frameAllocOk : Bool
  getBufferRet : Int
  getBufferSurface : Nat
  beginStatus : Nat
  createBufferStatus : Nat
  createBufferId : Nat
  uninitParamsId : Nat
  renderStatus : Nat
  endStatus : Nat
  configVAAPI1 : Bool
  quirkRenderParamBuffers : Bool
  copyPropsRet : Int
  filterFrameRet : Int
deriving DecidableEq, Repr

/-- What one call of the frame filter did: the return value, the frame handed
downstream (if any), whether an output frame was allocated and whether it was
freed again, whether the input frame was freed, and the hardware calls made
in order. -/
structure FilterResult where
  ret : Int
  delivered : Option Frame
  outputAllocated : Bool
  outputFreed : Bool
  inputFreed : Bool
  calls : List VACall
deriving DecidableEq, Repr

/-- The per-frame submission (procamp_vaapi_filter_frame, lines 334-463),
translated branch by branch.  Notable source behaviours kept as-is: a failed
av_hwframe_get_buffer is only logged, not aborted on; the recovery path after
a begin has been recorded re-runs vaRenderPicture with one buffer entry and
then vaEndPicture; metadata copy failure frees the output frame and keeps the
input frame alive. -/
def procamp_vaapi_filter_frame (ctx : PCtx) (env : FilterEnv)
    (input_frame : Frame) : FilterResult :=
  match ctx.va_context with
  | none =>
      { ret := AVERROR_EINVAL, delivered := none, outputAllocated := false,
        outputFreed := false, inputFreed := false, calls := [] }
  | some vactx =>
      let input_surface := input_frame.surface
      if env.frameAllocOk = false then
        { ret := AVERROR_ENOMEM, delivered := none, outputAllocated := false,
          outputFreed := false, inputFreed := false, calls := [] }
      else
        let output0 : Frame :=
          if env.getBufferRet < 0 then blankFrame
          else { blankFrame with
                 format := AV_PIX_FMT_VAAPI,
                 width := ctx.output_width,
                 height := ctx.output_height,
                 surface := env.getBufferSurface }
        let output_surface := output0.surface
        let params : PipelineParams :=
          { surface := input_surface,
            region_width := input_frame.width,
            region_height := input_frame.height,
            surface_color_standard :=
              vaapi_proc_colour_standard input_frame.colorspace,
            output_background_color := 0xff000000,
            output_color_standard :=
              vaapi_proc_colour_standard input_frame.colorspace,
            pipeline_flags := 0,
            filter_flags := VA_FRAME_PICTURE,
            filters := ctx.filter_buffer,
            num_filters := 1 }
        let callsB := [VACall.beginPicture vactx output_surface]
        if env.beginStatus ≠ VA_STATUS_SUCCESS then
          { ret := AVERROR_EIO, delivered := none, outputAllocated := true,
            outputFreed := true, inputFreed := false, calls := callsB }
        else
          let callsC := callsB ++ [VACall.createBuffer vactx params]
          if env.createBufferStatus ≠ VA_STATUS_SUCCESS then
            { ret := AVERROR_EIO, delivered := none, outputAllocated := true,
              outputFreed := true, inputFreed := false,
              calls := callsC ++
                [VACall.renderPicture vactx env.uninitParamsId 1,
                 VACall.endPicture vactx] }
          else
            let params_id := env.createBufferId
            let callsR := callsC ++ [VACall.renderPicture vactx params_id 1]
            if env.renderStatus ≠ VA_STATUS_SUCCESS then
              { ret := AVERROR_EIO, delivered := none, outputAllocated := true,
                outputFreed := true, inputFreed := false,
                calls := callsR ++
                  [VACall.renderPicture vactx params_id 1,
                   VACall.endPicture vactx] }
            else
              let callsE := callsR ++ [VACall.endPicture vactx]
              if env.endStatus ≠ VA_STATUS_SUCCESS then
                { ret := AVERROR_EIO, delivered := none,
                  outputAllocated := true, outputFreed := true,
                  inputFreed := false,
                  calls := callsE ++ [VACall.endPicture vactx] }
              else
                let callsD := callsE ++
                  (if env.configVAAPI1 = true ∨
                      env.quirkRenderParamBuffers = true then
                     [VACall.destroyBuffer params_id]
                   else [])
                if env.copyPropsRet < 0 then
                  { ret := env.copyPropsRet, delivered := none,
                    outputAllocated := true, outputFreed := true,
                    inputFreed := false, calls := callsD }
                else
                  let output_frame : Frame :=
                    { output0 with
                      pts := input_frame.pts,
                      sideData := input_frame.sideData }
                  { ret := env.filterFrameRet,
                    delivered := some output_frame,
                    outputAllocated := true, outputFreed := false,
                    inputFreed := true, calls := callsD }

/-! ## Driver resource world, pipeline teardown and context build
(lines 79-101, 122-195, 197-318) -/

/-- The driver-side allocator state: which config/context/buffer ids are live,
and the next fresh id handed out by a successful creation call. -/
structure VAWorld where
  liveConfigs : List Nat
  liveContexts : List Nat
  liveBuffers : List Nat
  nextId : Nat
deriving DecidableEq, Repr

/-- A filter instance together with the driver world it talks to. -/
structure Sys where
  pctx : PCtx
  world : VAWorld
deriving DecidableEq, Repr

/-- A driver-owned resource, used both for creation order and for destroy
calls. -/
inductive Res where
  | config (id : Nat)
  | context (id : Nat)
  | buffer (id : Nat)
deriving DecidableEq, Repr

/-- Teardown (procamp_vaapi_pipeline_uninit, lines 79-101): destroy the filter
buffer, then the execution context, then the configuration — each only when
its id is valid — then drop the output pool reference and the device
reference.  Returns the updated system and the destroy calls issued, in
order. -/
def procamp_vaapi_pipeline_uninit (s : Sys) : Sys × List Res :=
  let step1 : VAWorld × List Res :=
    match s.pctx.filter_buffer with
    | some b =>
        ({ s.world with liveBuffers := s.world.liveBuffers.erase b },
         [Res.buffer b])
    | none => (s.world, [])
  let step2 : VAWorld × List Res :=
    match s.pctx.va_context with
    | some c =>
        ({ step1.1 with liveContexts := step1.1.liveContexts.erase c },
         step1.2 ++ [Res.context c])
    | none => (step1.1, step1.2)
  let step3 : VAWorld × List Res :=
    match s.pctx.va_config with
    | some g =>
        ({ step2.1 with liveConfigs := step2.1.liveConfigs.erase g },
         step2.2 ++ [Res.config g])
    | none => (step2.1, step2.2)
  ({ pctx := { s.pctx with
       va_config := none, va_context := none, filter_buffer := none,
       output_frames := none, device_ref := false },
     world := step3.1 },
   step3.2)

/-- The distinguishable failure points of a context build
(procamp_vaapi_config_output together with
procamp_vaapi_build_filter_params). -/
inductive CfgErr where
  | eio_config
  | enomem_hwconfig
  | enomem_constraints
  | unsupported_format (fmt : Nat)
  | enomem_frames_alloc
  | init_failed (e : Int)
  | eio_context
  | eio_query_caps
  | eio_filter_buffer
  | enomem_outlink
deriving DecidableEq, Repr

/-- The errno-style return value each build failure maps to in the source. -/
def CfgErr.errno : CfgErr → Int
  | .eio_config => AVERROR_EIO
  | .enomem_hwconfig => AVERROR_ENOMEM
  | .enomem_constraints => AVERROR_ENOMEM
  | .unsupported_format _ => AVERROR_EINVAL
  | .enomem_frames_alloc => AVERROR_ENOMEM
  | .init_failed e => e
  | .eio_context => AVERROR_EIO
  | .eio_query_caps => AVERROR_EIO
  | .eio_filter_buffer => AVERROR_EIO
  | .enomem_outlink => AVERROR_ENOMEM

/-- Outcomes of the external calls one context build can make.
`valid_sw_formats` is the device constraint list (none when the device
publishes no list, mirroring a NULL valid_sw_formats array); `caps` is the
range table returned by the capability query; `opts` the user option
values. -/
structure ConfigEnv where
  createConfigOk : Bool
  hwconfigAllocOk : Bool
  constraintsOk : Bool
  valid_sw_formats : Option (List Nat)
  hwframeCtxAllocOk : Bool
  hwframeCtxInitRet : Int
  createContextOk : Bool
  queryCapsOk : Bool
  caps : Control → CapRange
  createFilterBufferOk : Bool
  outlinkRefOk : Bool
  opts : ProcampOpts

/-- Whether a candidate output format passes the constraint check of lines
242-253: with no published list every format passes; with a list the format
must be a member (the loop stops either at a match or at the AV_PIX_FMT_NONE
sentinel). -/
def formatSupported (env : ConfigEnv) (fmt : Nat) : Bool :=
  match env.valid_sw_formats with
  | none => true
  | some l => fmt ∈ l

/-- What one context build did: the failure (none on success), the final
system, whether hwconfig or the constraints record leaked (allocated but not
released before returning), whether the shared fail-cleanup block at the end
of the function ran, the output link configuration, the initial teardown
trace, and the driver resources created, in creation order. -/
structure ConfigResult where
  err : Option CfgErr
  sys : Sys
  hwconfigLeaked : Bool
  constraintsLeaked : Bool
  failCleanupRun : Bool
  outlinkW : Nat
  outlinkH : Nat
  outlink_hw_frames : Option PoolSpec
  uninitTrace : List Res
  creates : List Res
deriving Repr

/-- Parameter-buffer build (procamp_vaapi_build_filter_params, lines
122-195): query the color-balance capabilities, encode the four parameter
records, and create the single filter parameter buffer.  Returns the updated
system and the failure, if any. -/
def procamp_vaapi_build_filter_params (s : Sys) (env : ConfigEnv) :
    Sys × Option CfgErr :=
  if env.queryCapsOk = false then
    (s, some .eio_query_caps)
  else
    -- the encoded records of lines 143-181; their device-side copy is what
    -- the created buffer holds
    let _records := procamp_params env.opts env.caps
    if env.createFilterBufferOk = false then
      (s, some .eio_filter_buffer)
    else
      let bufId := s.world.nextId
      ({ pctx := { s.pctx with filter_buffer := some bufId },
         world := { s.world with
           liveBuffers := s.world.liveBuffers ++ [bufId],
           nextId := bufId + 1 } },
       none)

/-- Context build (procamp_vaapi_config_output, lines 197-318), translated
branch by branch: teardown first, take the device reference, copy the input
dimensions, create the config, allocate hwconfig and query the constraints,
default and check the output format, allocate and initialise the output
pool, create the execution context (whose failure returns directly, without
running the shared fail-cleanup block), build the filter parameter buffer,
and publish the output link.  Every failure path except the context-creation
one runs the fail block, which drops the output pool reference and releases
hwconfig and the constraints. -/
def procamp_vaapi_config_output (s0 : Sys) (env : ConfigEnv) : ConfigResult :=
  let u := procamp_vaapi_pipeline_uninit s0
  let s1 := u.1
  let tr := u.2
  let s2 : Sys :=
    { s1 with pctx := { s1.pctx with
        device_ref := true,
        output_width := s1.pctx.input_width,
        output_height := s1.pctx.input_height } }
  if env.createConfigOk = false then
    { err := some .eio_config, sys := s2,
      hwconfigLeaked := false, constraintsLeaked := false,
      failCleanupRun := true, outlinkW := 0, outlinkH := 0,
      outlink_hw_frames := none, uninitTrace := tr, creates := [] }
  else
    let cfgId := s2.world.nextId
    let s3 : Sys :=
      { pctx := { s2.pctx with va_config := some cfgId },
        world := { s2.world with
          liveConfigs := s2.world.liveConfigs ++ [cfgId],
          nextId := cfgId + 1 } }
    let creates3 := [Res.config cfgId]
    if env.hwconfigAllocOk = false then
      { err := some .enomem_hwconfig, sys := s3,
        hwconfigLeaked := false, constraintsLeaked := false,
        failCleanupRun := true, outlinkW := 0, outlinkH := 0,
        outlink_hw_frames := none, uninitTrace := tr, creates := creates3 }
    else if env.constraintsOk = false then
      { err := some .enomem_constraints, sys := s3,
        hwconfigLeaked := false, constraintsLeaked := false,
        failCleanupRun := true, outlinkW := 0, outlinkH := 0,
        outlink_hw_frames := none, uninitTrace := tr, creates := creates3 }
    else
      let outfmt := s3.pctx.output_format.getD s3.pctx.input_sw_format
      let s4 : Sys :=
        { s3 with pctx := { s3.pctx with output_format := some outfmt } }
      if formatSupported env outfmt = false then
        { err := some (.unsupported_format outfmt), sys := s4,
          hwconfigLeaked := false, constraintsLeaked := false,
          failCleanupRun := true, outlinkW := 0, outlinkH := 0,
          outlink_hw_frames := none, uninitTrace := tr, creates := creates3 }
      else if env.hwframeCtxAllocOk = false then
        { err := some .enomem_frames_alloc, sys := s4,
          hwconfigLeaked := false, constraintsLeaked := false,
          failCleanupRun := true, outlinkW := 0, outlinkH := 0,
          outlink_hw_frames := none, uninitTrace := tr, creates := creates3 }
      else
        let pool : PoolSpec :=
          { sw_format := outfmt,
            width := s4.pctx.output_width,
            height := s4.pctx.output_height,
            initial_pool_size := 10 }
        let s5 : Sys :=
          { s4 with pctx := { s4.pctx with output_frames := some pool } }
        if env.hwframeCtxInitRet < 0 then
          { err := some (.init_failed env.hwframeCtxInitRet),
            sys := { s5 with
              pctx := { s5.pctx with output_frames := none } },
            hwconfigLeaked := false, constraintsLeaked := false,
            failCleanupRun := true, outlinkW := 0, outlinkH := 0,
            outlink_hw_frames := none, uninitTrace := tr, creates := creates3 }
        else if env.createContextOk = false then
          -- source: return AVERROR(EIO) directly, not goto fail
          { err := some .eio_context, sys := s5,
            hwconfigLeaked := true, constraintsLeaked := true,
            failCleanupRun := false, outlinkW := 0, outlinkH := 0,
            outlink_hw_frames := none, uninitTrace := tr, creates := creates3 }
        else
          let ctxId := s5.world.nextId
          let s6 : Sys :=
            { pctx := { s5.pctx with va_context := some ctxId },
              world := { s5.world with
                liveContexts := s5.world.liveContexts ++ [ctxId],
                nextId := ctxId + 1 } }
          let creates6 := creates3 ++ [Res.context ctxId]
          let bfp := procamp_vaapi_build_filter_params s6 env
          match bfp.2 with
          | some e =>
              { err := some e,
                sys := { bfp.1 with
                  pctx := { bfp.1.pctx with output_frames := none } },
                hwconfigLeaked := false, constraintsLeaked := false,
                failCleanupRun := true, outlinkW := 0, outlinkH := 0,
                outlink_hw_frames := none, uninitTrace := tr,
                creates := creates6 }
          | none =>
              let creates7 := creates6 ++
                [Res.buffer s6.world.nextId]
              if env.outlinkRefOk = false then
                { err := some .enomem_outlink,
                  sys := { bfp.1 with
                    pctx := { bfp.1.pctx with output_frames := none } },
                  hwconfigLeaked := false, constraintsLeaked := false,
                  failCleanupRun := true,
                  outlinkW := bfp.1.pctx.output_width,
                  outlinkH := bfp.1.pctx.output_height,
                  outlink_hw_frames := none, uninitTrace := tr,
                  creates := creates7 }
              else
                { err := none, sys := bfp.1,
                  hwconfigLeaked := false, constraintsLeaked := false,
                  failCleanupRun := false,
                  outlinkW := bfp.1.pctx.output_width,
                  outlinkH := bfp.1.pctx.output_height,
                  outlink_hw_frames := bfp.1.pctx.output_frames,
                  uninitTrace := tr, creates := creates7 }

/-- N consecutive rebuilds: run config_output once per step, each step with
its own driver outcomes. -/
def rebuilds (envs : Nat → ConfigEnv) : Nat → Sys → Sys
  | 0, s => s
  | n + 1, s => rebuilds envs n (procamp_vaapi_config_output s (envs n)).sys

/-- The liveness invariant tying the driver world to the context fields: the
live id lists are exactly the ids the context currently holds. -/
def wfSys (s : Sys) : Prop :=
  s.world.liveConfigs = s.pctx.va_config.toList ∧
  s.world.liveContexts = s.pctx.va_context.toList ∧
  s.world.liveBuffers = s.pctx.filter_buffer.toList

/-! ## Concrete instances used to evaluate the model -/

/-- Options with brightness 150 and the other controls at their defaults. -/
def opts1 : ProcampOpts :=
  { bright := 150, contrast := 1, hue := 0, saturation := 1 }

/-- A capability table whose every range is [-50, 50]. -/
def caps1 : Control → CapRange :=
  fun _ => { min_value := -50, max_value := 50 }

/-- A fully built context: config 1, context 2, filter buffer 3, NV12-like
software format tag 5, 1920x1080. -/
def ctxReady : PCtx :=
  { va_config := some 1, va_context := some 2, filter_buffer := some 3,
    output_format := some 5, output_width := 1920, output_height := 1080,
    output_frames := some { sw_format := 5, width := 1920, height := 1080,
                            initial_pool_size := 10 },
    device_ref := true,
    input_sw_format := 5, input_width := 1920, input_height := 1080 }

/-- The same instance with the execution context not built. -/
def ctxNotReady : PCtx := { ctxReady with va_context := none }

/-- A BT.709 input frame with surface 42, pts 12345 and two side-data
entries. -/
def frame1 : Frame :=
  { format := AV_PIX_FMT_VAAPI, width := 1920, height := 1080,
    colorspace := .bt709, pts := 12345, sideData := [7, 8], surface := 42 }

/-- A submission environment in which every external call succeeds. -/
def envAllOk : FilterEnv :=
  { frameAllocOk := true, getBufferRet := 0, getBufferSurface := 77,
    beginStatus := 0, createBufferStatus := 0, createBufferId := 9,
    uninitParamsId := 0, renderStatus := 0, endStatus := 0,
    configVAAPI1 := true, quirkRenderParamBuffers := false,
    copyPropsRet := 0, filterFrameRet := 0 }

/-- The same environment with the output pool exhausted: the surface
acquisition fails with AVERROR(ENOMEM). -/
def envPoolExhausted : FilterEnv := { envAllOk with getBufferRet := AVERROR_ENOMEM }

/-- The same environment with vaCreateBuffer failing; the indeterminate stack
value of params_id is 1234. -/
def envCreateBufFail : FilterEnv :=
  { envAllOk with createBufferStatus := 1, uninitParamsId := 1234 }

/-- The same environment with vaEndPicture failing. -/
def envEndFail : FilterEnv := { envAllOk with endStatus := 1 }

/-- The same environment with the downstream delivery call failing. -/
def envDownstreamFail : FilterEnv := { envAllOk with filterFrameRet := -5 }

/-- The same environment with vaBeginPicture failing. -/
def envBeginFail : FilterEnv := { envAllOk with beginStatus := 1 }

/-- The pipeline parameter record built for frame1 in context ctxReady. -/
def pipelineParams1 : PipelineParams :=
  { surface := 42, region_width := 1920, region_height := 1080,
    surface_color_standard := .bt709, output_background_color := 0xff000000,
    output_color_standard := .bt709, pipeline_flags := 0,
    filter_flags := VA_FRAME_PICTURE, filters := some 3, num_filters := 1 }

/-- A fresh, unbuilt filter instance over an empty driver world. -/
def sys0 : Sys :=
  { pctx := { va_config := none, va_context := none, filter_buffer := none,
              output_format := none, output_width := 0, output_height := 0,
              output_frames := none, device_ref := false,
              input_sw_format := 5, input_width := 1920,
              input_height := 1080 },
    world := { liveConfigs := [], liveContexts := [], liveBuffers := [],
               nextId := 100 } }

/-- The same instance with an explicit output-format override to tag 4. -/
def sysOv4 : Sys :=
  { sys0 with pctx := { sys0.pctx with output_format := some 4 } }

/-- The same instance with an explicit output-format override to tag 9,
which the device does not offer. -/
def sysOv9 : Sys :=
  { sys0 with pctx := { sys0.pctx with output_format := some 9 } }

/-- A build environment in which every external call succeeds; the device
offers software formats 4, 5 and 6. -/
def cfgEnvOk : ConfigEnv :=
  { createConfigOk := true, hwconfigAllocOk := true, constraintsOk := true,
    valid_sw_formats := some [4, 5, 6], hwframeCtxAllocOk := true,
    hwframeCtxInitRet := 0, createContextOk := true, queryCapsOk := true,
    caps := fun _ => { min_value := -100, max_value := 100 },
    createFilterBufferOk := true, outlinkRefOk := true,
    opts := { bright := 0, contrast := 1, hue := 0, saturation := 1 } }

/-- The same build environment with vaCreateContext failing. -/
def cfgEnvCtxFail : ConfigEnv := { cfgEnvOk with createContextOk := false }

/-- A built system for teardown experiments: ids 1, 2, 3 live. -/
def sysBuilt : Sys :=
  { pctx := ctxReady,
    world := { liveConfigs := [1], liveContexts := [2], liveBuffers := [3],
               nextId := 4 } }

/-! ## Theorems -/

/-- Clamping a value to a well-formed range is the max/min combination the
spec states. -/
theorem av_clip_eq_max_min (a amin amax : ℚ) (h : amin ≤ amax) :
    av_clip a amin amax = max amin (min a amax) := by
  unfold av_clip
  simp only [max_def, min_def]
  split_ifs <;> linarith

/-- C1: for each of the four controls, the parameter list of lines 143-181
contains exactly one record for that control; its value is the logical
default (0 for brightness and hue, 1 for contrast and saturation) when the
user-set value equals that default, and max(min, min(v, max)) over the
queried device range otherwise; on the default path the clamp guard does not
fire. -/
theorem procamp_params_encoding (o : ProcampOpts) (caps : Control → CapRange)
    (hwf : ∀ c : Control, (caps c).min_value ≤ (caps c).max_value)
    (c : Control) :
    ((procamp_params o caps).filter (fun p => p.attrib == c) =
      [{ attrib := c,
         value := if userValue o c = logicalDefault c then logicalDefault c
           else max (caps c).min_value
             (min (userValue o c) (caps c).max_value) }]) ∧
    (userValue o c = logicalDefault c → clampInvoked o c = false) := by
  cases c
  case brightness =>
    constructor
    · by_cases h : o.bright = 0 <;>
        simp [procamp_params, userValue, logicalDefault, h,
          av_clip_eq_max_min _ _ _ (hwf Control.brightness)]
    · intro h
      simp only [userValue, logicalDefault] at h
      simp [clampInvoked, h]
  case contrast =>
    constructor
    · by_cases h : o.contrast = 1 <;>
        simp [procamp_params, userValue, logicalDefault, h,
          av_clip_eq_max_min _ _ _ (hwf Control.contrast)]
    · intro h
      simp only [userValue, logicalDefault] at h
      simp [clampInvoked, h]
  case hue =>
    constructor
    · by_cases h : o.hue = 0 <;>
        simp [procamp_params, userValue, logicalDefault, h,
          av_clip_eq_max_min _ _ _ (hwf Control.hue)]
    · intro h
      simp only [userValue, logicalDefault] at h
      simp [clampInvoked, h]
  case saturation =>
    constructor
    · by_cases h : o.saturation = 1 <;>
        simp [procamp_params, userValue, logicalDefault, h,
          av_clip_eq_max_min _ _ _ (hwf Control.saturation)]
    · intro h
      simp only [userValue, logicalDefault] at h
      simp [clampInvoked, h]

/-- Witness for C1 at the spec scenario: brightness 150 with every device
range [-50, 50] encodes 50, and the default-valued saturation control never
fires the clamp guard. -/
theorem procamp_params_encoding_witness :
    ((procamp_params opts1 caps1).filter
        (fun p => p.attrib == Control.brightness) =
      [{ attrib := Control.brightness, value := 50 }]) ∧
    clampInvoked opts1 Control.saturation = false := by
  have hwf : ∀ c : Control, (caps1 c).min_value ≤ (caps1 c).max_value := by
    intro c
    simp only [caps1]
    norm_num
  have h1 := (procamp_params_encoding opts1 caps1 hwf Control.brightness).1
  have h2 := (procamp_params_encoding opts1 caps1 hwf Control.saturation).2
  constructor
  · rw [h1]
    norm_num [userValue, logicalDefault, opts1, caps1, max_def, min_def]
  · exact h2 (by simp [userValue, opts1, logicalDefault])

/-- C6: a submission attempted while the execution context is not built
(va_context is VA_INVALID_ID) returns AVERROR(EINVAL) at once: nothing is
delivered, no frame is allocated or freed, the input is kept, and no
hardware call is made. -/
theorem filter_frame_invalid_state (ctx : PCtx) (env : FilterEnv) (f : Frame)
    (h : ctx.va_context = none) :
    procamp_vaapi_filter_frame ctx env f =
      { ret := AVERROR_EINVAL, delivered := none, outputAllocated := false,
        outputFreed := false, inputFreed := false, calls := [] } := by
  unfold procamp_vaapi_filter_frame
  rw [h]

/-- Witness for C6 on a concrete unbuilt context. -/
theorem filter_frame_invalid_state_witness :
    procamp_vaapi_filter_frame ctxNotReady envAllOk frame1 =
      { ret := AVERROR_EINVAL, delivered := none, outputAllocated := false,
        outputFreed := false, inputFreed := false, calls := [] } :=
  filter_frame_invalid_state ctxNotReady envAllOk frame1 rfl

/-- C2 (failing evaluation): when the output-surface acquisition fails (pool
exhausted, AVERROR(ENOMEM)) and every later driver call succeeds, the
submission does not abort: it goes on to record hardware calls starting with
vaBeginPicture on the empty frame (surface 0), delivers a frame downstream
and returns success. -/
theorem filter_frame_pool_exhaustion_not_aborted :
    (procamp_vaapi_filter_frame ctxReady envPoolExhausted frame1).ret = 0 ∧
    VACall.beginPicture 2 0 ∈
      (procamp_vaapi_filter_frame ctxReady envPoolExhausted frame1).calls ∧
    (procamp_vaapi_filter_frame ctxReady envPoolExhausted frame1).delivered ≠
      none := by
  decide

/-- C3: on a successful submission (every external call succeeds), exactly
one output frame is delivered; its pts and side data equal the input's, the
input frame is released, and the filter returns the downstream delivery
result. -/
theorem filter_frame_success (ctx : PCtx) (env : FilterEnv) (f : Frame)
    (v : Nat) (hctx : ctx.va_context = some v)
    (halloc : env.frameAllocOk = true)
    (hget : 0 ≤ env.getBufferRet)
    (hbegin : env.beginStatus = VA_STATUS_SUCCESS)
    (hcreate : env.createBufferStatus = VA_STATUS_SUCCESS)
    (hrender : env.renderStatus = VA_STATUS_SUCCESS)
    (hend : env.endStatus = VA_STATUS_SUCCESS)
    (hcopy : 0 ≤ env.copyPropsRet) :
    ∃ out : Frame,
      (procamp_vaapi_filter_frame ctx env f).delivered = some out ∧
      out.pts = f.pts ∧
      out.sideData = f.sideData ∧
      (procamp_vaapi_filter_frame ctx env f).inputFreed = true ∧
      (procamp_vaapi_filter_frame ctx env f).ret = env.filterFrameRet := by
  unfold procamp_vaapi_filter_frame
  rw [hctx]
  simp [halloc, hbegin, hcreate, hrender, hend,
    not_lt.mpr hget, not_lt.mpr hcopy]

/-- Witness for C3 on concrete inputs: the delivered frame keeps pts 12345
and the side data of the input. -/
theorem filter_frame_success_witness :
    ∃ out : Frame,
      (procamp_vaapi_filter_frame ctxReady envAllOk frame1).delivered =
        some out ∧
      out.pts = frame1.pts ∧
      out.sideData = frame1.sideData ∧
      (procamp_vaapi_filter_frame ctxReady envAllOk frame1).inputFreed =
        true ∧
      (procamp_vaapi_filter_frame ctxReady envAllOk frame1).ret =
        envAllOk.filterFrameRet :=
  filter_frame_success ctxReady envAllOk frame1 2 rfl rfl (by decide)
    rfl rfl rfl rfl (by decide)

/-- C9 (failing evaluation): when vaCreateBuffer fails, the recovery path
issues vaRenderPicture with ONE buffer entry — the indeterminate stack value
of params_id — followed by vaEndPicture, and returns AVERROR(EIO); when
vaEndPicture fails, the recovery path issues no render call at all, only a
second vaEndPicture. -/
theorem filter_frame_cleanup_renders_one_buffer :
    ((procamp_vaapi_filter_frame ctxReady envCreateBufFail frame1).ret =
        AVERROR_EIO ∧
      (procamp_vaapi_filter_frame ctxReady envCreateBufFail frame1).calls =
        [VACall.beginPicture 2 77, VACall.createBuffer 2 pipelineParams1,
         VACall.renderPicture 2 1234 1, VACall.endPicture 2]) ∧
    ((procamp_vaapi_filter_frame ctxReady envEndFail frame1).ret =
        AVERROR_EIO ∧
      (procamp_vaapi_filter_frame ctxReady envEndFail frame1).calls =
        [VACall.beginPicture 2 77, VACall.createBuffer 2 pipelineParams1,
         VACall.renderPicture 2 9 1, VACall.endPicture 2,
         VACall.endPicture 2]) := by
  decide

/-- C10 (counterexample): with every step succeeding but the downstream
delivery call reporting an error, the submission returns that error even
though the input frame has already been released and the output frame has
been handed downstream — so the claim that an error return never releases
the input fails on this path. -/
theorem filter_frame_downstream_error_releases_input :
    (procamp_vaapi_filter_frame ctxReady envDownstreamFail frame1).ret < 0 ∧
    (procamp_vaapi_filter_frame ctxReady envDownstreamFail frame1).inputFreed
      = true ∧
    (procamp_vaapi_filter_frame ctxReady envDownstreamFail frame1).delivered
      ≠ none := by
  decide

/-- C10 (amended): on every error return where no frame was handed
downstream, the freshly allocated output frame (if any) has been freed and
the input frame is retained; and the input frame is released exactly when an
output frame is handed downstream, which on an error return can only be the
downstream delivery call reporting the error. -/
theorem filter_frame_error_ownership (ctx : PCtx) (env : FilterEnv)
    (f : Frame)
    (_hret : (procamp_vaapi_filter_frame ctx env f).ret < 0) :
    ((procamp_vaapi_filter_frame ctx env f).delivered = none →
      (procamp_vaapi_filter_frame ctx env f).outputFreed =
        (procamp_vaapi_filter_frame ctx env f).outputAllocated ∧
      (procamp_vaapi_filter_frame ctx env f).inputFreed = false) ∧
    ((procamp_vaapi_filter_frame ctx env f).inputFreed = true ↔
      (procamp_vaapi_filter_frame ctx env f).delivered ≠ none) := by
  clear _hret
  unfold procamp_vaapi_filter_frame
  cases ctx.va_context <;> simp <;> split_ifs <;> simp

/-- Witness for the amended C10 on a concrete error path (vaBeginPicture
fails): the allocated output frame is freed and the input is retained. -/
theorem filter_frame_error_ownership_witness :
    (procamp_vaapi_filter_frame ctxReady envBeginFail frame1).outputFreed =
      (procamp_vaapi_filter_frame ctxReady envBeginFail frame1).outputAllocated
    ∧ (procamp_vaapi_filter_frame ctxReady envBeginFail frame1).inputFreed =
      false :=
  (filter_frame_error_ownership ctxReady envBeginFail frame1 (by decide)).1
    (by decide)

/-- Teardown clears the id fields, the pool reference and the device
reference of the instance and touches nothing else in it. -/
theorem pipeline_uninit_pctx (s : Sys) :
    (procamp_vaapi_pipeline_uninit s).1.pctx =
      { s.pctx with
          va_config := none, va_context := none, filter_buffer := none,
          output_frames := none, device_ref := false } :=
  rfl

/-- C4 (failing evaluation): when vaCreateContext fails after the config,
hwconfig, constraints and the output pool have all been built, the function
returns AVERROR(EIO) directly: the shared fail-cleanup block does not run,
hwconfig and the constraints record leak, and the output pool reference is
still held. -/
theorem config_output_context_failure_skips_teardown :
    (procamp_vaapi_config_output sys0 cfgEnvCtxFail).err =
      some CfgErr.eio_context ∧
    CfgErr.eio_context.errno = AVERROR_EIO ∧
    (procamp_vaapi_config_output sys0 cfgEnvCtxFail).failCleanupRun = false ∧
    (procamp_vaapi_config_output sys0 cfgEnvCtxFail).hwconfigLeaked = true ∧
    (procamp_vaapi_config_output sys0 cfgEnvCtxFail).constraintsLeaked =
      true ∧
    (procamp_vaapi_config_output sys0 cfgEnvCtxFail).sys.pctx.output_frames
      ≠ none := by
  decide

/-- C7: with no explicit output-format override, a successful negotiation
keeps the input dimensions, takes the input's native software format as the
output format, and sizes the pool with the policy constant 10. -/
theorem config_output_default_negotiation (s : Sys) (env : ConfigEnv)
    (hfmt : s.pctx.output_format = none)
    (h1 : env.createConfigOk = true)
    (h2 : env.hwconfigAllocOk = true)
    (h3 : env.constraintsOk = true)
    (h4 : formatSupported env s.pctx.input_sw_format = true)
    (h5 : env.hwframeCtxAllocOk = true)
    (h6 : 0 ≤ env.hwframeCtxInitRet)
    (h7 : env.createContextOk = true)
    (h8 : env.queryCapsOk = true)
    (h9 : env.createFilterBufferOk = true)
    (h10 : env.outlinkRefOk = true) :
    (procamp_vaapi_config_output s env).err = none ∧
    (procamp_vaapi_config_output s env).sys.pctx.output_frames =
      some { sw_format := s.pctx.input_sw_format,
             width := s.pctx.input_width,
             height := s.pctx.input_height,
             initial_pool_size := 10 } ∧
    (procamp_vaapi_config_output s env).outlink_hw_frames =
      some { sw_format := s.pctx.input_sw_format,
             width := s.pctx.input_width,
             height := s.pctx.input_height,
             initial_pool_size := 10 } ∧
    (procamp_vaapi_config_output s env).outlinkW = s.pctx.input_width ∧
    (procamp_vaapi_config_output s env).outlinkH = s.pctx.input_height := by
  unfold procamp_vaapi_config_output procamp_vaapi_build_filter_params
    procamp_vaapi_pipeline_uninit
  simp [h1, h2, h3, h4, h5, h7, h8, h9, h10, hfmt, not_lt.mpr h6]

/-- Witness for C7 at the spec scenario: native format 5, 1920x1080, no
override; the negotiated pool is format 5, 1920x1080, size 10. -/
theorem config_output_default_negotiation_witness :
    (procamp_vaapi_config_output sys0 cfgEnvOk).err = none ∧
    (procamp_vaapi_config_output sys0 cfgEnvOk).sys.pctx.output_frames =
      some { sw_format := 5, width := 1920, height := 1080,
             initial_pool_size := 10 } ∧
    (procamp_vaapi_config_output sys0 cfgEnvOk).outlink_hw_frames =
      some { sw_format := 5, width := 1920, height := 1080,
             initial_pool_size := 10 } ∧
    (procamp_vaapi_config_output sys0 cfgEnvOk).outlinkW = 1920 ∧
    (procamp_vaapi_config_output sys0 cfgEnvOk).outlinkH = 1080 :=
  config_output_default_negotiation sys0 cfgEnvOk rfl rfl rfl rfl
    (by decide) rfl (by decide) rfl rfl rfl rfl

/-- C8: with an explicit output-format override and a device that publishes
a valid-format list, negotiation fails with the unsupported-format error
(AVERROR(EINVAL)) exactly when the requested format is not in the list; a
format in the list never produces that error. -/
theorem config_output_format_override (s : Sys) (env : ConfigEnv)
    (fmt : Nat) (l : List Nat)
    (hov : s.pctx.output_format = some fmt)
    (hl : env.valid_sw_formats = some l) :
    (fmt ∉ l →
      env.createConfigOk = true →
      env.hwconfigAllocOk = true →
      env.constraintsOk = true →
      (procamp_vaapi_config_output s env).err =
        some (CfgErr.unsupported_format fmt) ∧
      (CfgErr.unsupported_format fmt).errno = AVERROR_EINVAL) ∧
    (fmt ∈ l →
      ∀ g : Nat, (procamp_vaapi_config_output s env).err ≠
        some (CfgErr.unsupported_format g)) := by
  constructor
  · intro hnot hc1 hc2 hc3
    unfold procamp_vaapi_config_output procamp_vaapi_pipeline_uninit
    simp [hc1, hc2, hc3, hov, formatSupported, hl, hnot, CfgErr.errno]
  · intro hmem g hcontra
    have hfs : formatSupported env fmt = true := by
      simp [formatSupported, hl, hmem]
    have hu1 : (procamp_vaapi_pipeline_uninit s).1.pctx.output_format =
        some fmt := by
      rw [pipeline_uninit_pctx]
      exact hov
    unfold procamp_vaapi_config_output procamp_vaapi_build_filter_params
      at hcontra
    generalize hgen : procamp_vaapi_pipeline_uninit s = u at hcontra
    rw [hgen] at hu1
    clear hgen hov hl
    simp only [hu1] at hcontra
    by_cases h1 : env.createConfigOk = false
    · rw [if_pos h1] at hcontra
      simp at hcontra
    rw [if_neg h1] at hcontra
    by_cases h2 : env.hwconfigAllocOk = false
    · rw [if_pos h2] at hcontra
      simp at hcontra
    rw [if_neg h2] at hcontra
    by_cases h3 : env.constraintsOk = false
    · rw [if_pos h3] at hcontra
      simp at hcontra
    rw [if_neg h3] at hcontra
    rw [if_neg (by simp [hfs])] at hcontra
    by_cases h5 : env.hwframeCtxAllocOk = false
    · rw [if_pos h5] at hcontra
      simp at hcontra
    rw [if_neg h5] at hcontra
    by_cases h6 : env.hwframeCtxInitRet < 0
    · rw [if_pos h6] at hcontra
      simp at hcontra
    rw [if_neg h6] at hcontra
    by_cases h7 : env.createContextOk = false
    · rw [if_pos h7] at hcontra
      simp at hcontra
    rw [if_neg h7] at hcontra
    by_cases h8 : env.queryCapsOk = false
    · rw [if_pos h8] at hcontra
      simp at hcontra
    rw [if_neg h8] at hcontra
    by_cases h9 : env.createFilterBufferOk = false
    · rw [if_pos h9] at hcontra
      simp at hcontra
    rw [if_neg h9] at hcontra
    by_cases h10 : env.outlinkRefOk = false
    · simp only [if_pos h10] at hcontra
      simp at hcontra
    · simp only [if_neg h10] at hcontra
      simp at hcontra

/-- Witness for C8: format 9 is rejected with the unsupported-format error
by a device offering formats 4, 5 and 6, while format 4 is accepted. -/
theorem config_output_format_override_witness :
    ((procamp_vaapi_config_output sysOv9 cfgEnvOk).err =
      some (CfgErr.unsupported_format 9)) ∧
    ((procamp_vaapi_config_output sysOv4 cfgEnvOk).err ≠
      some (CfgErr.unsupported_format 4)) :=
  ⟨((config_output_format_override sysOv9 cfgEnvOk 9 [4, 5, 6] rfl rfl).1
      (by decide) rfl rfl rfl).1,
   (config_output_format_override sysOv4 cfgEnvOk 4 [4, 5, 6] rfl rfl).2
      (by decide) 4⟩

/-- Teardown of a well-formed system empties the live id lists and consumes
no fresh ids. -/
theorem pipeline_uninit_world (s : Sys) (h : wfSys s) :
    (procamp_vaapi_pipeline_uninit s).1.world =
      { liveConfigs := [], liveContexts := [], liveBuffers := [],
        nextId := s.world.nextId } := by
  obtain ⟨hc, hx, hb⟩ := h
  obtain ⟨pc, lc, lx, lb, ni⟩ := s
  simp only at hc hx hb
  unfold procamp_vaapi_pipeline_uninit
  cases hfb : pc.filter_buffer <;> cases hvc : pc.va_context <;>
    cases hcf : pc.va_config <;>
      simp_all [Option.toList]

/-- A well-formed system has at most one live config, context and buffer. -/
theorem wf_counts (s : Sys) (h : wfSys s) :
    s.world.liveConfigs.length ≤ 1 ∧
    s.world.liveContexts.length ≤ 1 ∧
    s.world.liveBuffers.length ≤ 1 := by
  obtain ⟨hc, hx, hb⟩ := h
  rw [hc, hx, hb]
  refine ⟨?_, ?_, ?_⟩
  · cases s.pctx.va_config <;> simp [Option.toList]
  · cases s.pctx.va_context <;> simp [Option.toList]
  · cases s.pctx.filter_buffer <;> simp [Option.toList]

/-- A context build preserves the liveness invariant in every branch: each
creation call adds exactly the id the instance then holds, and nothing else
allocates. -/
theorem config_output_wf (s : Sys) (env : ConfigEnv) (h : wfSys s) :
    wfSys (procamp_vaapi_config_output s env).sys := by
  have hp := pipeline_uninit_pctx s
  have hw := pipeline_uninit_world s h
  unfold procamp_vaapi_config_output procamp_vaapi_build_filter_params
  set u := procamp_vaapi_pipeline_uninit s with hu
  clear_value u
  clear hu h
  dsimp only at hp ⊢
  by_cases h1 : env.createConfigOk = false
  · rw [if_pos h1]
    simp [wfSys, hp, hw, Option.toList]
  rw [if_neg h1]
  by_cases h2 : env.hwconfigAllocOk = false
  · rw [if_pos h2]
    simp [wfSys, hp, hw, Option.toList]
  rw [if_neg h2]
  by_cases h3 : env.constraintsOk = false
  · rw [if_pos h3]
    simp [wfSys, hp, hw, Option.toList]
  rw [if_neg h3]
  by_cases h4 : formatSupported env
      (u.1.pctx.output_format.getD u.1.pctx.input_sw_format) = false
  · rw [if_pos h4]
    simp [wfSys, hp, hw, Option.toList]
  rw [if_neg h4]
  by_cases h5 : env.hwframeCtxAllocOk = false
  · rw [if_pos h5]
    simp [wfSys, hp, hw, Option.toList]
  rw [if_neg h5]
  by_cases h6 : env.hwframeCtxInitRet < 0
  · rw [if_pos h6]
    simp [wfSys, hp, hw, Option.toList]
  rw [if_neg h6]
  by_cases h7 : env.createContextOk = false
  · rw [if_pos h7]
    simp [wfSys, hp, hw, Option.toList]
  rw [if_neg h7]
  by_cases h8 : env.queryCapsOk = false
  · rw [if_pos h8]
    simp [wfSys, hp, hw, Option.toList]
  rw [if_neg h8]
  by_cases h9 : env.createFilterBufferOk = false
  · rw [if_pos h9]
    simp [wfSys, hp, hw, Option.toList]
  rw [if_neg h9]
  by_cases h10 : env.outlinkRefOk = false
  · simp only [if_pos h10]
    simp [wfSys, hp, hw, Option.toList]
  · simp only [if_neg h10]
    simp [wfSys, hp, hw, Option.toList]

/-- C5: (a) after a successful build, teardown destroys exactly the created
resources in reverse creation order (buffer, then context, then config);
(b) teardown of an already-torn-down system changes nothing and issues no
destroy call; (c) starting from a well-formed system, any number of
consecutive rebuilds — each running teardown first — leaves at most one live
config, at most one live context and at most one live parameter buffer. -/
theorem pipeline_teardown_and_rebuild_props :
    (∀ (s : Sys) (env : ConfigEnv),
      (procamp_vaapi_config_output s env).err = none →
      (procamp_vaapi_pipeline_uninit
          (procamp_vaapi_config_output s env).sys).2 =
        ((procamp_vaapi_config_output s env).creates).reverse) ∧
    (∀ s : Sys,
      procamp_vaapi_pipeline_uninit (procamp_vaapi_pipeline_uninit s).1 =
        ((procamp_vaapi_pipeline_uninit s).1, [])) ∧
    (∀ (s : Sys) (envs : Nat → ConfigEnv) (n : Nat), wfSys s →
      (rebuilds envs n s).world.liveConfigs.length ≤ 1 ∧
      (rebuilds envs n s).world.liveContexts.length ≤ 1 ∧
      (rebuilds envs n s).world.liveBuffers.length ≤ 1) := by
  refine ⟨?_, ?_, ?_⟩
  · intro s env hsucc
    unfold procamp_vaapi_config_output procamp_vaapi_build_filter_params
      at hsucc ⊢
    set u := procamp_vaapi_pipeline_uninit s with hu
    clear_value u
    clear hu
    dsimp only at hsucc ⊢
    by_cases h1 : env.createConfigOk = false
    · rw [if_pos h1] at hsucc
      simp at hsucc
    rw [if_neg h1] at hsucc ⊢
    by_cases h2 : env.hwconfigAllocOk = false
    · rw [if_pos h2] at hsucc
      simp at hsucc
    rw [if_neg h2] at hsucc ⊢
    by_cases h3 : env.constraintsOk = false
    · rw [if_pos h3] at hsucc
      simp at hsucc
    rw [if_neg h3] at hsucc ⊢
    by_cases h4 : formatSupported env
        (u.1.pctx.output_format.getD u.1.pctx.input_sw_format) = false
    · rw [if_pos h4] at hsucc
      simp at hsucc
    rw [if_neg h4] at hsucc ⊢
    by_cases h5 : env.hwframeCtxAllocOk = false
    · rw [if_pos h5] at hsucc
      simp at hsucc
    rw [if_neg h5] at hsucc ⊢
    by_cases h6 : env.hwframeCtxInitRet < 0
    · rw [if_pos h6] at hsucc
      simp at hsucc
    rw [if_neg h6] at hsucc ⊢
    by_cases h7 : env.createContextOk = false
    · rw [if_pos h7] at hsucc
      simp at hsucc
    rw [if_neg h7] at hsucc ⊢
    by_cases h8 : env.queryCapsOk = false
    · rw [if_pos h8] at hsucc
      simp at hsucc
    rw [if_neg h8] at hsucc ⊢
    by_cases h9 : env.createFilterBufferOk = false
    · rw [if_pos h9] at hsucc
      simp at hsucc
    rw [if_neg h9] at hsucc ⊢
    by_cases h10 : env.outlinkRefOk = false
    · simp only [if_pos h10] at hsucc
      simp at hsucc
    · simp only [if_neg h10] at hsucc ⊢
      simp [procamp_vaapi_pipeline_uninit]
  · intro s
    rfl
  · intro s envs n h
    induction n generalizing s with
    | zero => exact wf_counts s h
    | succ n ih =>
        exact ih (procamp_vaapi_config_output s (envs n)).sys
          (config_output_wf s (envs n) h)

/-- Witness for C5 on concrete systems: a successful build from a fresh
instance is torn down in reverse creation order; double teardown of a built
instance is a no-op the second time; three consecutive rebuilds leave at
most one live config. -/
theorem pipeline_teardown_and_rebuild_witness :
    ((procamp_vaapi_pipeline_uninit
        (procamp_vaapi_config_output sys0 cfgEnvOk).sys).2 =
      ((procamp_vaapi_config_output sys0 cfgEnvOk).creates).reverse) ∧
    (procamp_vaapi_pipeline_uninit (procamp_vaapi_pipeline_uninit sysBuilt).1
      = ((procamp_vaapi_pipeline_uninit sysBuilt).1, [])) ∧
    (rebuilds (fun _ => cfgEnvOk) 3 sys0).world.liveConfigs.length ≤ 1 :=
  ⟨pipeline_teardown_and_rebuild_props.1 sys0 cfgEnvOk (by decide),
   pipeline_teardown_and_rebuild_props.2.1 sysBuilt,
   (pipeline_teardown_and_rebuild_props.2.2 sys0 (fun _ => cfgEnvOk) 3
      ⟨rfl, rfl, rfl⟩).1⟩

end ProcampVAAPI
